import Mathlib

/-!
Verification of the IVR (telephony voice-menu) backend in `app.py`.

The embedding below translates the pure routing, filtering, throttling,
caching and trimming logic of the source into Lean definitions.  External
providers (yt_dlp, Google Maps, audio resolution) are modelled as an
explicit environment: each request-handling function takes the provider
responses as data, mirroring exactly how the Python code consumes them.
Time (`time.time()`) is modelled as an integer: every property below only
compares time differences against the constants of the source (60-second
window and TTL), so any linearly ordered time domain gives the same theory,
and integers keep every statement decidable on concrete inputs.
-/

namespace KosherNav

/-! ## Utilities (app.py lines 67-103) -/

/-- Embeds `smart_trim` (app.py line 67-68):
`return text if len(text) <= limit else text[:limit] + "... (הטקסט קוצר)"`.
Python strings are sequences of code points; `String.mk (text.data.take limit)`
is the slice `text[:limit]`. -/
def smart_trim (text : String) (limit : Nat := 400) : String :=
  if text.length ≤ limit then text
  else String.mk (text.data.take limit) ++ "... (הטקסט קוצר)"

/-- Embeds Python's substring test `pat in s` on code-point sequences: some
index position of `s` starts with `pat`. -/
def substrIn (pat s : List Char) : Bool :=
  (List.range (s.length + 1)).any (fun i => pat.isPrefixOf (s.drop i))

/-- Embeds `is_safe` (app.py lines 70-73): lower-case the text and reject it
when any word of the fixed block-list occurs as a substring. -/
def is_safe (text : String) : Bool :=
  let forbidden : List String := ["xxx", "badword"]
  let lowered := text.data.map Char.toLower
  !(forbidden.any (fun word => substrIn word.data lowered))

/-- Embeds one call of `rate_limit` (app.py lines 75-81) on a caller's
timestamp record: prune timestamps `t` with `now - t >= window`, reject
(HTTP 429) when the pruned record already holds `limit` entries, otherwise
admit and append `now`.  Returns (admitted?, new record). -/
def rate_limit (records : List ℤ) (now : ℤ) (limit : Nat := 30)
    (window : ℤ := 60) : Bool × List ℤ :=
  let pruned := records.filter (fun t => decide (now - t < window))
  if limit ≤ pruned.length then (false, pruned) else (true, pruned ++ [now])

/-- A sequence of `rate_limit` calls for one caller, threading the stored
record; returns the final record and the per-request admission flags. -/
def rate_limit_run : List ℤ → List ℤ → List ℤ × List Bool
  | records, [] => (records, [])
  | records, now :: rest =>
    let step := rate_limit records now
    let tail := rate_limit_run step.2 rest
    (tail.1, step.1 :: tail.2)

/-- Embeds `get_cache` (app.py lines 83-91).  The cache dict is a map from
keys to (value, insertion time); an entry older than 60s is deleted and
reported absent.  Returns (result, cache after the lazy eviction). -/
def get_cache {κ V : Type} [DecidableEq κ] (cache : κ → Option (V × ℤ))
    (key : κ) (now : ℤ) : Option V × (κ → Option (V × ℤ)) :=
  match cache key with
  | none => (none, cache)
  | some (data, timestamp) =>
    if now - timestamp > 60 then
      (none, fun k => if k = key then none else cache k)
    else (some data, cache)

/-- Embeds `set_cache` (app.py lines 93-94): store (value, now) at the key. -/
def set_cache {κ V : Type} [DecidableEq κ] (cache : κ → Option (V × ℤ))
    (key : κ) (value : V) (now : ℤ) : κ → Option (V × ℤ) :=
  fun k => if k = key then some (value, now) else cache k

/-! ## Provider data (app.py lines 136-159) -/

/-- One search hit as built by `search_youtube`: `{'title': ..., 'video_id': ...}`. -/
structure YtEntry where
  title : String
  video_id : String
deriving DecidableEq

/-- The raw outcome of the yt_dlp `extract_info` call inside `search_youtube`:
an exception, or an info dict whose `entries` key is absent (`none`) or holds
a (possibly empty) list. -/
inductive YtRaw : Type
  | exn : YtRaw
  | info : Option (List YtEntry) → YtRaw
deriving DecidableEq

/-- Embeds `search_youtube` (app.py lines 136-147): on exception return None;
if `'entries' in info and info['entries']`, return the singleton list holding
the first entry's title and id; otherwise return None. -/
def search_youtube : YtRaw → Option (List YtEntry)
  | .exn => none
  | .info none => none
  | .info (some []) => none
  | .info (some (e :: _)) => some [⟨e.title, e.video_id⟩]

/-- The outcome of `extract_audio_info` (app.py lines 149-159): a dict with
`url` and `title` keys on success, or `{"error": msg}` on exception. -/
inductive AudioInfo : Type
  | ok : String → String → AudioInfo
  | err : String → AudioInfo
deriving DecidableEq

/-- One Google-Maps place result: the `name` and `formatted_address` fields
the IVR reads (app.py lines 234-235). -/
structure Place where
  name : String
  address : String
deriving DecidableEq

/-- The external-provider environment of one `/ivr` request: the yt_dlp
search response per query, the audio-resolution response per video id, and
the Google-Maps client (absent when `MAPS_API_KEY` is unset). -/
structure IvrEnv where
  ytRaw : String → YtRaw
  audioRaw : String → AudioInfo
  gmaps : Option (String → List Place)

/-! ## IVR dialog router (app.py lines 165-244) -/

/-- Embeds the sentinel normalization (app.py lines 174-175):
`if not DTMF or DTMF == "%val%": DTMF = None` — Python's `not` sends both
the absent value and the empty string to None, as does the platform's
`"%val%"` sentinel. -/
def normParam : Option String → Option String
  | none => none
  | some s => if s = "" ∨ s = "%val%" then none else some s

/-- The main-menu directive (app.py lines 185-191). -/
def menuText : String :=
  "read=t-שלום. לניווט ומוביט הקש 2. לחיפוש ביוטיוב הקש 3. לספוטיפיי הקש 4. לבינה מלאכותית הקש 5.=DTMF,yes,1,1,1,Digits,no"

/-- The generic error directive of the middleware (app.py line 129), the
"system trouble" message of the spec. -/
def systemTroubleMsg : String := "id_list_message=t-חלה שגיאה במערכת, אנא נסו שוב."

/-- The fall-through directive (app.py line 244). -/
def backToMenuMsg : String := "id_list_message=t-חזרה לתפריט הראשי."

/-- Embeds step 2 of `ivr` (app.py lines 194-204): keypad digit present,
no speech yet — answer the digit's speech prompt with the digit re-attached
via `&DTMF=`, or the "invalid selection" terminal message. -/
def ivrStep2 (d : String) : String :=
  if d = "2" then "read=t-נא אמרו יעד לנסיעה=search_query,no,he,1,5,7&DTMF=" ++ d
  else if d = "3" then "read=t-נא אמרו שם שיר ליוטיוב=search_query,no,he,1,5,7&DTMF=" ++ d
  else if d = "4" then "read=t-נא אמרו שם שיר לספוטיפיי=search_query,no,he,1,5,7&DTMF=" ++ d
  else if d = "5" then "read=t-נא אמרו שאלה לבינה המלאכותית=search_query,no,he,1,5,7&DTMF=" ++ d
  else "id_list_message=t-בחירה לא תקינה. להתראות."

/-- Embeds step 3 of `ivr` (app.py lines 207-244): speech present — run the
skill selected by the echoed digit, falling through to the back-to-menu
message for any digit without an execution branch. -/
def ivrStep3 (env : IvrEnv) (dtmf : Option String) (q : String) : String :=
  if dtmf = some "3" then
    match search_youtube (env.ytRaw q) with
    | some (e :: _) =>
      let title := smart_trim e.title 100
      match env.audioRaw e.video_id with
      | AudioInfo.ok url _ => "playfile=" ++ url
      | AudioInfo.err _ =>
        "id_list_message=t-לא ניתן להפיק קישור להשמעה עבור " ++ title ++ "."
    | _ => "id_list_message=t-לא נמצאו תוצאות ביוטיוב."
  else if dtmf = some "2" then
    match env.gmaps with
    | none => "id_list_message=t-שירות המיקום אינו מוגדר."
    | some g =>
      match g q with
      | p :: _ => "id_list_message=t-מצאתי את " ++ p.name ++ " בכתובת " ++ p.address ++ "."
      | [] => "id_list_message=t-לא מצאתי את המקום המבוקש."
  else if dtmf = some "5" then
    "id_list_message=t-" ++ smart_trim ("תשובת המערכת עבור " ++ q ++ ": השירות בבדיקה.") 400
  else backToMenuMsg

/-- The routing core of `ivr` after normalization (app.py lines 177-244):
hang-up check, then the three dialog states — both fields absent (menu),
digit only (speech prompt), speech present (execute). -/
def ivrCore (env : IvrEnv) (dtmf sq : Option String) (hangup : String) : String :=
  if hangup = "yes" then ""
  else match dtmf, sq with
  | none, none => menuText
  | some d, none => ivrStep2 d
  | _, some q => ivrStep3 env dtmf q

/-- Embeds the `/ivr` handler (app.py lines 165-244): normalize the platform
sentinels, then route.  `apiCallId` and `apiPhone` are accepted and ignored
by the routing logic, exactly as in the source (they are only logged). -/
def ivr (env : IvrEnv) (apiCallId apiPhone : String)
    (dtmf sq : Option String) (hangup : String) : String :=
  ivrCore env (normParam dtmf) (normParam sq) hangup

/-! ## `/search` and `/chat` endpoints (app.py lines 253-284) -/

/-- The `SearchResponse` model (app.py lines 56-58). -/
structure SearchResponse where
  message : String
  results : Option (List YtEntry)
deriving DecidableEq

/-- Embeds the `/search` endpoint (app.py lines 253-267): HTTP 400 on an
unsafe query, else search and describe the first hit. -/
def search_endpoint (env : IvrEnv) (query : String) : Except String SearchResponse :=
  if is_safe query = false then Except.error "תוכן לא תקין"
  else match search_youtube (env.ytRaw query) with
  | some (e :: rest) =>
    let message := "נמצא: " ++ e.title ++ "."
    let message :=
      if 1 < (e :: rest).length then message ++ " להשמעת שאר התוצאות הקש 2."
      else message
    Except.ok ⟨message, some (e :: rest)⟩
  | _ => Except.ok ⟨"לא נמצאו תוצאות", none⟩

/-- Embeds the `/chat` endpoint (app.py lines 280-284): HTTP 400 on unsafe
text, else a trimmed echo response. -/
def chat (text : String) : Except String String :=
  if is_safe text = false then Except.error "תוכן לא תקין"
  else Except.ok (smart_trim ("תגובה עבור: " ++ text) 400)

/-! ## Provider gateway model (spec §4.2) -/

/-- The error taxonomy of the spec (§7). -/
inductive ErrorKind : Type
  | Unsafe | NoResult | Throttled | Transient | Fatal
deriving DecidableEq

/-- The spec's `ProviderCallResult`: `{success, payload, errorKind}`. -/
structure ProviderCallResult (α : Type) where
  success : Bool
  payload : Option α
  errorKind : Option ErrorKind
deriving DecidableEq

/-- How one provider attempt can end: error, timeout, empty result set, or a
valid non-empty result. -/
inductive ProviderOutcome (α : Type) : Type
  | error | timeout | empty
  | ok : α → ProviderOutcome α
deriving DecidableEq

/-- A provider outcome is usable exactly when it is a valid non-empty result. -/
def usable {α : Type} : ProviderOutcome α → Option α
  | .ok payload => some payload
  | _ => none

/-- Modelled from the spec: the fallback chain of the Provider Gateway (§4.2),
which no capability in `src/app.py` implements (each skill there wraps a
single provider).  Attempt providers strictly in order; the first usable
result wins; a provider that errors, times out, or returns an empty result
set is skipped; if all are exhausted, return `errorKind=NoResult`. -/
def gatewayCall {α : Type} : List (ProviderOutcome α) → ProviderCallResult α
  | [] => ⟨false, none, some ErrorKind.NoResult⟩
  | p :: rest =>
    match usable p with
    | some payload => ⟨true, some payload, none⟩
    | none => gatewayCall rest

/-- The single media-search provider of `src/app.py` viewed as a provider
outcome: an exception or a missing/empty `entries` list is unusable, a
non-empty one yields the singleton result list of `search_youtube`. -/
def ytProvider : YtRaw → ProviderOutcome (List YtEntry)
  | .exn => .error
  | .info none => .empty
  | .info (some []) => .empty
  | .info (some (e :: _)) => .ok [⟨e.title, e.video_id⟩]

/-! ## Concrete environments used by witnesses and counterexamples -/

/-- An environment in which every provider fails; the routing claims proved
for all environments are witnessed here. -/
def defaultEnv : IvrEnv :=
  { ytRaw := fun _ => YtRaw.exn
    audioRaw := fun _ => AudioInfo.err "e"
    gmaps := none }

/-- An environment whose media-search provider returns a hit and whose audio
resolver succeeds, used to exhibit an unfiltered skill execution. -/
def cexEnv : IvrEnv :=
  { ytRaw := fun _ => YtRaw.info (some [⟨"xxx title", "vid1"⟩])
    audioRaw := fun _ => AudioInfo.ok "http://audio" "t"
    gmaps := none }

/-! ## Routing lemmas -/

/-- When the normalized speech field is present, `ivr` routes to step 3. -/
theorem ivr_eq_step3 (env : IvrEnv) (cid phone : String) (dtmf sq : Option String)
    (hangup : String) (q : String) (hs : normParam sq = some q)
    (hh : hangup ≠ "yes") :
    ivr env cid phone dtmf sq hangup = ivrStep3 env (normParam dtmf) q := by
  unfold ivr ivrCore
  rw [hs, if_neg hh]
  cases normParam dtmf <;> rfl

/-- When the normalized digit is present and speech absent, `ivr` routes to
step 2. -/
theorem ivr_eq_step2 (env : IvrEnv) (cid phone : String) (dtmf sq : Option String)
    (hangup : String) (d : String) (hd : normParam dtmf = some d)
    (hs : normParam sq = none) (hh : hangup ≠ "yes") :
    ivr env cid phone dtmf sq hangup = ivrStep2 d := by
  unfold ivr ivrCore
  rw [hd, hs, if_neg hh]

/-! ## C8: hang-up returns the empty string -/

/-- C8: for every inbound signal with `hangup == "yes"` (hangupRequested),
the route operation returns exactly the empty string, regardless of the
caller id, phone, keypad input and spoken text (app.py lines 177-179). -/
theorem ivr_hangup_returns_empty (env : IvrEnv) (cid phone : String)
    (dtmf sq : Option String) : ivr env cid phone dtmf sq "yes" = "" := by
  unfold ivr ivrCore
  rw [if_pos rfl]

/-! ## C9: menu when both fields absent -/

/-- C9: for every signal with `hangup ≠ "yes"` in which keypad input and
spoken text are both absent after sentinel normalization (absent, empty, or
the `"%val%"` sentinel), the route operation returns the MENU directive that
enumerates all skills by digit (app.py lines 184-191).  The embedded router
is a pure function of the request and provider environment, so two calls
with identical input are definitionally equal; this theorem pins their
common value to `menuText`. -/
theorem ivr_menu_when_both_absent (env : IvrEnv) (cid phone : String)
    (dtmf sq : Option String) (hangup : String) (hd : normParam dtmf = none)
    (hs : normParam sq = none) (hh : hangup ≠ "yes") :
    ivr env cid phone dtmf sq hangup = menuText := by
  unfold ivr ivrCore
  rw [hd, hs, if_neg hh]

/-- Witness for C9, exercising the sentinel normalization: `"%val%"` and the
empty string are treated as absent. -/
theorem ivr_menu_when_both_absent_witness :
    normParam (some "%val%") = none ∧ normParam (some "") = none
    ∧ ("" : String) ≠ "yes"
    ∧ ivr defaultEnv "" "" (some "%val%") (some "") "" = menuText :=
  ⟨by decide, by decide, by decide,
   ivr_menu_when_both_absent defaultEnv "" "" (some "%val%") (some "") ""
     (by decide) (by decide) (by decide)⟩

/-! ## C4: awaiting-speech routing -/

/-- The speech prompt each bound digit announces (the `read=` prefix of the
four branches of app.py lines 195-202, without the echoed digit). -/
def skillPrompt (d : String) : String :=
  if d = "2" then "read=t-נא אמרו יעד לנסיעה=search_query,no,he,1,5,7"
  else if d = "3" then "read=t-נא אמרו שם שיר ליוטיוב=search_query,no,he,1,5,7"
  else if d = "4" then "read=t-נא אמרו שם שיר לספוטיפיי=search_query,no,he,1,5,7"
  else if d = "5" then "read=t-נא אמרו שאלה לבינה המלאכותית=search_query,no,he,1,5,7"
  else ""

/-- C4: in the awaiting-speech state (normalized keypad digit present, speech
absent), a digit bound to a skill (2, 3, 4, 5) yields that skill's speech
prompt with the digit re-attached in the payload via `&DTMF=`, and an unbound
digit yields the fixed "invalid selection" terminal message, never a skill
prompt (app.py lines 193-204). -/
theorem ivr_awaiting_speech_routing (env : IvrEnv) (cid phone : String)
    (dtmf sq : Option String) (hangup : String) (d : String)
    (hd : normParam dtmf = some d) (hs : normParam sq = none)
    (hh : hangup ≠ "yes") :
    ((d = "2" ∨ d = "3" ∨ d = "4" ∨ d = "5") →
      ivr env cid phone dtmf sq hangup = skillPrompt d ++ "&DTMF=" ++ d)
    ∧ ((d ≠ "2" ∧ d ≠ "3" ∧ d ≠ "4" ∧ d ≠ "5") →
      ivr env cid phone dtmf sq hangup
        = "id_list_message=t-בחירה לא תקינה. להתראות.") := by
  have hcore : ivr env cid phone dtmf sq hangup = ivrStep2 d :=
    ivr_eq_step2 env cid phone dtmf sq hangup d hd hs hh
  constructor
  · rintro (h | h | h | h) <;> subst h <;> rw [hcore] <;> decide
  · rintro ⟨h2, h3, h4, h5⟩
    rw [hcore]
    unfold ivrStep2
    rw [if_neg h2, if_neg h3, if_neg h4, if_neg h5]

/-- Witness for C4: digit 3 (with an empty speech field, normalized to
absence) gives the media-search prompt echoing `&DTMF=3`; digit 7 gives the
invalid-selection message. -/
theorem ivr_awaiting_speech_routing_witness :
    (normParam (some "3") = some "3" ∧ normParam (some "") = none
     ∧ ("" : String) ≠ "yes"
     ∧ ivr defaultEnv "" "" (some "3") (some "") ""
         = skillPrompt "3" ++ "&DTMF=" ++ "3")
    ∧ ivr defaultEnv "" "" (some "7") none ""
        = "id_list_message=t-בחירה לא תקינה. להתראות." :=
  ⟨⟨by decide, by decide, by decide,
    (ivr_awaiting_speech_routing defaultEnv "" "" (some "3") (some "") "" "3"
      (by decide) (by decide) (by decide)).1 (Or.inr (Or.inl rfl))⟩,
   (ivr_awaiting_speech_routing defaultEnv "" "" (some "7") none "" "7"
      (by decide) (by decide) (by decide)).2 (by decide)⟩

/-! ## C1: executing state with an unbound digit -/

/-- C1 counterexample: in the executing state (speech present) with the
unbound digit 4, the route operation returns the "back to the main menu"
message (app.py line 244) — which is not the generic system-trouble
directive, and is precisely a response that reports a return to the menu,
contradicting the claim. -/
theorem ivr_executing_unbound_cex :
    ivr cexEnv "" "" (some "4") (some "song") "" = backToMenuMsg
    ∧ backToMenuMsg ≠ systemTroubleMsg := ⟨by decide, by decide⟩

/-- C1 amended: for every request in the executing state (normalized speech
present) whose normalized keypad digit is not one of the three digits with an
execution branch (3, 2, 5) — including digit 4 and an absent digit — the
route operation returns the "back to the main menu" message directive
`id_list_message=t-חזרה לתפריט הראשי.`, not a system-trouble message
(app.py lines 207-244). -/
theorem ivr_executing_unbound_returns_back_to_menu (env : IvrEnv)
    (cid phone : String) (dtmf sq : Option String) (hangup q : String)
    (hs : normParam sq = some q) (hh : hangup ≠ "yes")
    (h3 : normParam dtmf ≠ some "3") (h2 : normParam dtmf ≠ some "2")
    (h5 : normParam dtmf ≠ some "5") :
    ivr env cid phone dtmf sq hangup = backToMenuMsg := by
  rw [ivr_eq_step3 env cid phone dtmf sq hangup q hs hh]
  unfold ivrStep3
  rw [if_neg h3, if_neg h2, if_neg h5]

/-- Witness for the amended C1: digit 4 with speech "hello". -/
theorem ivr_executing_unbound_returns_back_to_menu_witness :
    normParam (some "hello") = some "hello" ∧ ("" : String) ≠ "yes"
    ∧ normParam (some "4") ≠ some "3" ∧ normParam (some "4") ≠ some "2"
    ∧ normParam (some "4") ≠ some "5"
    ∧ ivr defaultEnv "" "" (some "4") (some "hello") "" = backToMenuMsg :=
  ⟨by decide, by decide, by decide, by decide, by decide,
   ivr_executing_unbound_returns_back_to_menu defaultEnv "" "" (some "4")
     (some "hello") "" "hello" (by decide) (by decide) (by decide) (by decide)
     (by decide)⟩

/-! ## C2: content filter coverage -/

/-- C2 counterexample: the query "xxx song" contains the blocked term "xxx",
yet the media-search skill-execution path of the router invokes the provider
and returns a playback directive built from the provider's data — the call is
not rejected as unsafe.  `is_safe` is only consulted by the `/search` and
`/chat` endpoints (app.py lines 255, 282), never inside `ivr`. -/
theorem ivr_unsafe_query_executes_cex :
    is_safe "xxx song" = false
    ∧ ivr cexEnv "" "" (some "3") (some "xxx song") "" = "playfile=http://audio" :=
  ⟨by decide, by decide⟩

/-- C2 amended: a query containing a blocked term as a lower-cased substring
is rejected on the `/search` and `/chat` endpoints (with the HTTP 400 message
"תוכן לא תקין"), but the IVR skill-execution paths do not run the content
filter: the conversational-AI branch, for example, answers any normalized
query — safe or not — with its rendered directive (app.py lines 240-242,
253-256, 280-284). -/
theorem content_filter_only_on_search_chat (env : IvrEnv) (cid phone q : String)
    (hq : normParam (some q) = some q) (hblocked : is_safe q = false) :
    chat q = Except.error "תוכן לא תקין"
    ∧ search_endpoint env q = Except.error "תוכן לא תקין"
    ∧ ivr env cid phone (some "5") (some q) ""
        = "id_list_message=t-"
          ++ smart_trim ("תשובת המערכת עבור " ++ q ++ ": השירות בבדיקה.") 400 := by
  refine ⟨?_, ?_, ?_⟩
  · unfold chat
    rw [if_pos hblocked]
  · unfold search_endpoint
    rw [if_pos hblocked]
  · rw [ivr_eq_step3 env cid phone (some "5") (some q) "" q hq (by decide)]
    unfold ivrStep3
    rw [if_neg (by decide : ¬(normParam (some "5") = some "3")),
      if_neg (by decide : ¬(normParam (some "5") = some "2")),
      if_pos (by decide : normParam (some "5") = some "5")]

/-- Witness for the amended C2, exercising case-insensitivity of the filter:
"BadWord" lower-cases onto the blocked term "badword". -/
theorem content_filter_only_on_search_chat_witness :
    normParam (some "BadWord stuff") = some "BadWord stuff"
    ∧ is_safe "BadWord stuff" = false
    ∧ chat "BadWord stuff" = Except.error "תוכן לא תקין"
    ∧ search_endpoint defaultEnv "BadWord stuff" = Except.error "תוכן לא תקין"
    ∧ ivr defaultEnv "" "" (some "5") (some "BadWord stuff") ""
        = "id_list_message=t-"
          ++ smart_trim ("תשובת המערכת עבור " ++ "BadWord stuff" ++ ": השירות בבדיקה.") 400 :=
  ⟨by decide, by decide,
   (content_filter_only_on_search_chat defaultEnv "" "" "BadWord stuff"
     (by decide) (by decide)).1,
   (content_filter_only_on_search_chat defaultEnv "" "" "BadWord stuff"
     (by decide) (by decide)).2.1,
   (content_filter_only_on_search_chat defaultEnv "" "" "BadWord stuff"
     (by decide) (by decide)).2.2⟩

/-! ## C6: message truncation -/

/-- C6: a free-text body of at most 400 characters is embedded unchanged,
with no suffix; a longer body is truncated to its first 400 characters with
the visible truncation suffix "... (הטקסט קוצר)" appended (and only then), so
the embedded body is exactly 416 characters; in every case the result never
exceeds 416 characters, the line-length tolerance the renderer observes
(app.py lines 67-68). -/
theorem smart_trim_spec (text : String) :
    (text.length ≤ 400 → smart_trim text 400 = text)
    ∧ (400 < text.length →
        smart_trim text 400 = String.mk (text.data.take 400) ++ "... (הטקסט קוצר)"
        ∧ (smart_trim text 400).length = 416)
    ∧ (smart_trim text 400).length ≤ max text.length 416 := by
  have hlen : ∀ l : List Char, (String.mk l).length = l.length := fun _ => rfl
  refine ⟨?_, ?_, ?_⟩
  · intro h
    unfold smart_trim
    rw [if_pos h]
  · intro h
    have heq : smart_trim text 400
        = String.mk (text.data.take 400) ++ "... (הטקסט קוצר)" := by
      unfold smart_trim
      rw [if_neg (not_le.mpr h)]
    refine ⟨heq, ?_⟩
    rw [heq, String.length_append, hlen, List.length_take]
    have hd : text.length = text.data.length := rfl
    have hsuf : ("... (הטקסט קוצר)" : String).length = 16 := by decide
    rw [hsuf]
    omega
  · by_cases h : text.length ≤ 400
    · unfold smart_trim
      rw [if_pos h]
      omega
    · have h' : 400 < text.length := not_le.mp h
      unfold smart_trim
      rw [if_neg h]
      rw [String.length_append, hlen, List.length_take]
      have hd : text.length = text.data.length := rfl
      have hsuf : ("... (הטקסט קוצר)" : String).length = 16 := by decide
      rw [hsuf]
      omega

/-- Witness for C6: a 3-character body passes through unchanged; a
401-character body is truncated to exactly 416 characters. -/
theorem smart_trim_spec_witness :
    ("abc" : String).length ≤ 400 ∧ smart_trim "abc" 400 = "abc"
    ∧ 400 < (String.mk (List.replicate 401 'a')).length
    ∧ (smart_trim (String.mk (List.replicate 401 'a')) 400).length = 416 :=
  ⟨by decide, (smart_trim_spec "abc").1 (by decide),
   by show 400 < (List.replicate 401 'a').length; rw [List.length_replicate]; omega,
   ((smart_trim_spec (String.mk (List.replicate 401 'a'))).2.1
     (by show 400 < (List.replicate 401 'a').length; rw [List.length_replicate]; omega)).2⟩

/-! ## C5: cache round-trip -/

/-- C5: for every key and value, `set_cache` immediately followed by
`get_cache` at a time within the 60-second TTL of the insertion returns the
value unchanged; a `get_cache` after the TTL has elapsed returns absent and
removes the entry (app.py lines 83-94). -/
theorem cache_roundtrip {κ V : Type} [DecidableEq κ]
    (cache : κ → Option (V × ℤ)) (key : κ) (value : V) (t now : ℤ) :
    (now - t ≤ 60 →
      (get_cache (set_cache cache key value t) key now).1 = some value)
    ∧ (60 < now - t →
      (get_cache (set_cache cache key value t) key now).1 = none
      ∧ (get_cache (set_cache cache key value t) key now).2 key = none) := by
  have hset : set_cache cache key value t key = some (value, t) := by
    unfold set_cache
    rw [if_pos rfl]
  constructor
  · intro h
    unfold get_cache
    rw [hset]
    simp only []
    rw [if_neg (not_lt.mpr h)]
  · intro h
    unfold get_cache
    rw [hset]
    simp only []
    rw [if_pos h]
    refine ⟨rfl, ?_⟩
    show (if key = key then none else set_cache cache key value t key) = none
    rw [if_pos rfl]

/-- Witness for C5: a value stored at time 0 is still readable at time 50 and
is absent (entry removed) at time 61. -/
theorem cache_roundtrip_witness :
    ((50 : ℤ) - 0 ≤ 60
     ∧ (get_cache (set_cache (fun _ => (none : Option (Nat × ℤ))) 0 7 0) 0 50).1
         = some 7)
    ∧ (60 < (61 : ℤ) - 0
       ∧ (get_cache (set_cache (fun _ => (none : Option (Nat × ℤ))) 0 7 0) 0 61).1
           = none
       ∧ (get_cache (set_cache (fun _ => (none : Option (Nat × ℤ))) 0 7 0) 0 61).2 0
           = none) :=
  ⟨⟨by decide, (cache_roundtrip (fun _ => none) 0 7 0 50).1 (by decide)⟩,
   ⟨by decide, (cache_roundtrip (fun _ => none) 0 7 0 61).2 (by decide)⟩⟩

/-! ## Throttle lemmas -/

/-- Pruning removes nothing when every stored timestamp is within the window. -/
theorem filter_window_eq_self (l : List ℤ) (now w : ℤ)
    (h : ∀ t ∈ l, now - t < w) :
    l.filter (fun t => decide (now - t < w)) = l :=
  List.filter_eq_self.mpr (fun a ha => decide_eq_true (h a ha))

/-- A throttle run over an appended request sequence splits into two runs. -/
theorem rate_limit_run_append (records xs ys : List ℤ) :
    rate_limit_run records (xs ++ ys)
      = ((rate_limit_run (rate_limit_run records xs).1 ys).1,
         (rate_limit_run records xs).2
           ++ (rate_limit_run (rate_limit_run records xs).1 ys).2) := by
  induction xs generalizing records with
  | nil => simp [rate_limit_run]
  | cons x xs ih => simp [rate_limit_run, ih]

/-- While fewer than 30 requests have arrived and all of them (and the prior
record) lie within one 60-second span, every request is admitted and the
record accumulates all timestamps in order. -/
theorem rate_limit_run_all_admit (reqs : List ℤ) :
    ∀ records : List ℤ, records.length + reqs.length ≤ 30 →
    (∀ a ∈ records ++ reqs, ∀ b ∈ records ++ reqs, a - b < 60) →
    rate_limit_run records reqs
      = (records ++ reqs, List.replicate reqs.length true) := by
  induction reqs with
  | nil => intro records _ _; simp [rate_limit_run]
  | cons now rest ih =>
    intro records hlen hspan
    have hmem : ∀ t ∈ records, t ∈ records ++ now :: rest :=
      fun t ht => List.mem_append_left _ ht
    have hnow : now ∈ records ++ now :: rest :=
      List.mem_append_right _ (List.mem_cons_self _ _)
    have hfilter : records.filter (fun t => decide (now - t < 60)) = records :=
      filter_window_eq_self records now 60
        (fun t ht => hspan now hnow t (hmem t ht))
    have hlt : ¬(30 ≤ records.length) := by
      simp only [List.length_cons] at hlen
      omega
    have hstep : rate_limit records now = (true, records ++ [now]) := by
      unfold rate_limit
      rw [hfilter, if_neg hlt]
    have hrec := ih (records ++ [now])
      (by simp only [List.length_append, List.length_cons, List.length_nil]
            at hlen ⊢; omega)
      (by
        intro a ha b hb
        apply hspan
        · simpa [List.append_assoc] using ha
        · simpa [List.append_assoc] using hb)
    simp only [rate_limit_run, hstep, hrec, List.append_assoc,
      List.singleton_append, List.length_cons, List.replicate_succ]

/-- The stored record never exceeds 30 timestamps. -/
theorem rate_limit_run_length_le (reqs : List ℤ) :
    ∀ records : List ℤ, records.length ≤ 30 →
    (rate_limit_run records reqs).1.length ≤ 30 := by
  induction reqs with
  | nil => intro records h; simpa [rate_limit_run] using h
  | cons now rest ih =>
    intro records h
    have hp : (records.filter (fun t => decide (now - t < 60))).length
        ≤ records.length := List.length_filter_le _ _
    simp only [rate_limit_run]
    unfold rate_limit
    by_cases hc : 30 ≤ (records.filter (fun t => decide (now - t < 60))).length
    · rw [if_pos hc]
      exact ih _ (le_trans hp h)
    · rw [if_neg hc]
      refine ih _ ?_
      simp only [List.length_append, List.length_singleton]
      omega

/-! ## C7: sliding-window throttle -/

/-- C7: for a single caller starting fresh, with 31 requests
`t0 :: rest ++ [r31]` all inside one 60-second span (`t0` the oldest), the
first 30 are admitted, the 31st is rejected, and a later request `u` arriving
once the window has slid past the oldest admitted timestamp
(`60 ≤ u - t0`) is admitted again (app.py lines 75-81). -/
theorem rate_limit_window (t0 : ℤ) (rest : List ℤ) (r31 u : ℤ)
    (hlen : rest.length = 29)
    (hold : ∀ t ∈ rest ++ [r31], t0 ≤ t)
    (hspan : ∀ a ∈ t0 :: (rest ++ [r31]), ∀ b ∈ t0 :: (rest ++ [r31]),
      a - b < 60)
    (hu : 60 ≤ u - t0) :
    (rate_limit_run [] ((t0 :: rest) ++ [r31, u])).2
      = List.replicate 30 true ++ [false, true] := by
  have hsub : ∀ t ∈ t0 :: rest, t ∈ t0 :: (rest ++ [r31]) := by
    intro t ht
    rcases List.mem_cons.mp ht with h | h
    · exact h ▸ List.mem_cons_self _ _
    · exact List.mem_cons_of_mem _ (List.mem_append_left _ h)
  have hr31 : r31 ∈ t0 :: (rest ++ [r31]) :=
    List.mem_cons_of_mem _ (List.mem_append_right _ (List.mem_singleton.mpr rfl))
  -- the first 30 requests are all admitted and fully recorded
  have h30 : rate_limit_run [] (t0 :: rest) = (t0 :: rest, List.replicate 30 true) := by
    have := rate_limit_run_all_admit (t0 :: rest) []
      (by simp [hlen])
      (by
        intro a ha b hb
        simp only [List.nil_append] at ha hb
        exact hspan a (hsub a ha) b (hsub b hb))
    simpa [hlen] using this
  -- the 31st request is rejected and leaves the record unchanged
  have hlen30 : (t0 :: rest).length = 30 := by simp [hlen]
  have hf31 : (t0 :: rest).filter (fun t => decide (r31 - t < 60)) = t0 :: rest :=
    filter_window_eq_self _ r31 60
      (fun t ht => hspan r31 hr31 t (hsub t ht))
  have hstep31 : rate_limit (t0 :: rest) r31 = (false, t0 :: rest) := by
    unfold rate_limit
    rw [hf31, if_pos (by omega)]
  -- the later request u prunes at least t0 and is admitted
  have hft0 : (fun t => decide (u - t < 60)) t0 = false := by
    simp only [decide_eq_false_iff_not, not_lt]
    omega
  have hfu : (t0 :: rest).filter (fun t => decide (u - t < 60))
      = rest.filter (fun t => decide (u - t < 60)) := by
    rw [List.filter_cons_of_neg]
    simp only [hft0, Bool.false_eq_true, not_false_iff]
  have hulen : ((t0 :: rest).filter (fun t => decide (u - t < 60))).length ≤ 29 := by
    rw [hfu]
    calc (rest.filter (fun t => decide (u - t < 60))).length
        ≤ rest.length := List.length_filter_le _ _
      _ = 29 := hlen
  have hstepu : (rate_limit (t0 :: rest) u).1 = true := by
    unfold rate_limit
    rw [if_neg (by omega)]
  rw [rate_limit_run_append, h30]
  simp only [rate_limit_run, hstep31, hstepu, List.replicate]

/-- Witness for C7: 31 simultaneous requests at time 0 give 30 admissions and
one rejection; a request at time 60 is admitted again. -/
theorem rate_limit_window_witness :
    (List.replicate 29 (0 : ℤ)).length = 29
    ∧ (∀ t ∈ List.replicate 29 (0 : ℤ) ++ [0], (0 : ℤ) ≤ t)
    ∧ (∀ a ∈ (0 : ℤ) :: (List.replicate 29 (0 : ℤ) ++ [0]),
        ∀ b ∈ (0 : ℤ) :: (List.replicate 29 (0 : ℤ) ++ [0]), a - b < 60)
    ∧ (60 : ℤ) ≤ 60 - 0
    ∧ (rate_limit_run [] (((0 : ℤ) :: List.replicate 29 0) ++ [0, 60])).2
        = List.replicate 30 true ++ [false, true] :=
  ⟨by decide, by decide, by decide, by decide,
   rate_limit_window 0 (List.replicate 29 0) 0 60 (by decide) (by decide)
     (by decide) (by decide)⟩

/-! ## C10: rejected requests consume no quota -/

/-- C10: the per-caller timestamp record never holds more than 30 entries:
a single `rate_limit` call on a record of at most 30 entries leaves at most
30, a rejected call leaves the record exactly equal to its pruned state (the
rejected request's timestamp is never appended), and any run from a fresh
record ends with at most 30 entries (app.py lines 75-81). -/
theorem rate_limit_record_bound (records : List ℤ) (now : ℤ) (reqs : List ℤ)
    (h : records.length ≤ 30) :
    (rate_limit records now).2.length ≤ 30
    ∧ ((rate_limit records now).1 = false →
        (rate_limit records now).2
          = records.filter (fun t => decide (now - t < 60)))
    ∧ (rate_limit_run [] reqs).1.length ≤ 30 := by
  have hp : (records.filter (fun t => decide (now - t < 60))).length
      ≤ records.length := List.length_filter_le _ _
  refine ⟨?_, ?_, rate_limit_run_length_le reqs [] (by simp)⟩
  · unfold rate_limit
    by_cases hc : 30 ≤ (records.filter (fun t => decide (now - t < 60))).length
    · rw [if_pos hc]
      show (records.filter (fun t => decide (now - t < 60))).length ≤ 30
      omega
    · rw [if_neg hc]
      show (records.filter (fun t => decide (now - t < 60)) ++ [now]).length ≤ 30
      simp only [List.length_append, List.length_singleton]
      omega
  · intro hrej
    unfold rate_limit at hrej ⊢
    by_cases hc : 30 ≤ (records.filter (fun t => decide (now - t < 60))).length
    · rw [if_pos hc]
    · rw [if_neg hc] at hrej
      simp at hrej

/-- Witness for C10: a full record of 30 zeros at time 0 rejects and stays at
its pruned state; the run from empty stays within the bound. -/
theorem rate_limit_record_bound_witness :
    (List.replicate 30 (0 : ℤ)).length ≤ 30
    ∧ (rate_limit (List.replicate 30 (0 : ℤ)) 0).2.length ≤ 30
    ∧ (rate_limit (List.replicate 30 (0 : ℤ)) 0).1 = false
    ∧ (rate_limit (List.replicate 30 (0 : ℤ)) 0).2
        = (List.replicate 30 (0 : ℤ)).filter (fun t => decide ((0 : ℤ) - t < 60))
    ∧ (rate_limit_run [] [(1 : ℤ), 2]).1.length ≤ 30 :=
  ⟨by decide,
   (rate_limit_record_bound (List.replicate 30 0) 0 [1, 2] (by decide)).1,
   by decide,
   (rate_limit_record_bound (List.replicate 30 0) 0 [1, 2] (by decide)).2.1
     (by decide),
   (rate_limit_record_bound (List.replicate 30 0) 0 [1, 2] (by decide)).2.2⟩

/-! ## C3: provider fallback chain (spec-modelled gateway) -/

/-- Every chain of unusable providers is reported as `NoResult`. -/
theorem gatewayCall_exhausted {α : Type} (chain : List (ProviderOutcome α))
    (h : ∀ p ∈ chain, usable p = none) :
    gatewayCall chain = ⟨false, none, some ErrorKind.NoResult⟩ := by
  induction chain with
  | nil => rfl
  | cons p rest ih =>
    unfold gatewayCall
    rw [h p (List.mem_cons_self _ _)]
    exact ih (fun x hx => h x (List.mem_cons_of_mem _ hx))

/-- C3 (gateway modelled from the spec, §4.2): when the primary provider is
unusable (error, timeout or empty result) and the secondary returns a valid
result, the call succeeds with the secondary's payload; when every provider
in a chain is exhausted, the call returns `errorKind=NoResult`; and the
source's single-provider media search (`search_youtube`) is exactly the
gateway instantiated with its one provider. -/
theorem gateway_fallback_chain {α : Type} (primary : ProviderOutcome α) (v : α)
    (rest chain : List (ProviderOutcome α)) (hprim : usable primary = none) :
    gatewayCall (primary :: ProviderOutcome.ok v :: rest)
      = ⟨true, some v, none⟩
    ∧ ((∀ p ∈ chain, usable p = none) →
        gatewayCall chain = ⟨false, none, some ErrorKind.NoResult⟩)
    ∧ (∀ r : YtRaw, (gatewayCall [ytProvider r]).payload = search_youtube r) := by
  refine ⟨?_, fun h => gatewayCall_exhausted chain h, ?_⟩
  · unfold gatewayCall
    rw [hprim]
    rfl
  · intro r
    match r with
    | YtRaw.exn => rfl
    | YtRaw.info none => rfl
    | YtRaw.info (some []) => rfl
    | YtRaw.info (some (e :: es)) => rfl

/-- Witness for C3: an erroring primary falls back to the valid secondary
payload 7; a chain of an empty and a timed-out provider yields `NoResult`. -/
theorem gateway_fallback_chain_witness :
    usable (ProviderOutcome.error : ProviderOutcome Nat) = none
    ∧ gatewayCall [ProviderOutcome.error, ProviderOutcome.ok 7]
        = ⟨true, some 7, none⟩
    ∧ gatewayCall ([ProviderOutcome.empty, ProviderOutcome.timeout]
          : List (ProviderOutcome Nat))
        = ⟨false, none, some ErrorKind.NoResult⟩ :=
  ⟨by decide,
   (gateway_fallback_chain ProviderOutcome.error 7 []
     [ProviderOutcome.empty, ProviderOutcome.timeout] (by decide)).1,
   (gateway_fallback_chain ProviderOutcome.error 7 []
     [ProviderOutcome.empty, ProviderOutcome.timeout] (by decide)).2.1
     (by decide)⟩

end KosherNav
